import Mathlib

/-!
Verification of the supervisor process manager (src/supervisor.js).

The program is a single-threaded, event-driven supervisor for one child
process.  All state transitions run as non-preemptible reactions to events
(timer fire, child output, child exit, OS signal), so the code is embedded
as pure transition functions on an explicit state record.  Each transition
returns the successor state together with the list of externally visible
actions it performs (spawning a child, sending a signal, arming a timer,
exiting the process); reading the state (the health endpoint) is not a
transition.

Machine integers: all timestamps and durations are JavaScript numbers
holding millisecond integer values; they are modelled as `Int`, so that
`now - timestamp` behaves exactly as in the source (it may be negative).
Counters are `Nat`.

Node semantics captured by the embedding: `child.kill(sig)` sets the
handle's `killed` flag to `true` (the flag records that a signal was sent,
not that the process died); `clearInterval h` cancels the timer registry
entry for `h` and is a no-op when `h` is already cancelled;
`setInterval` returns a fresh handle.  The timer registry of live hang
intervals is the `activeHangIntervals` field; the stored handle field
`hangDetectionInterval` mirrors `supervisorState.hangDetectionInterval`.
-/

namespace Supervisor

/-! ### Configuration (source lines 21-42) -/

def STREAM_TIMEOUT_MS : Int := 300000

def HANG_CHECK_INTERVAL_MS : Int := 5000

def MAX_RESTARTS : Nat := 3

def RESTART_DELAY_MS : Int := 2000

def RESTART_WINDOW_MS : Int := 3600000

def GRACEFUL_SHUTDOWN_TIMEOUT_MS : Int := 10000

def SIGKILL_DELAY_MS : Int := 5000

/-! ### Data model -/

/-- A child-process handle as the supervisor sees it: the pid and Node's
`killed` flag (set when a signal has been successfully sent via `kill`). -/
structure ChildProcess where
  pid : Nat
  killed : Bool
deriving DecidableEq, Repr

/-- Externally visible actions a reaction can perform. -/
inductive Action where
  | spawnChild (pid : Nat)
  | sigterm (pid : Nat)
  | sigkill (pid : Nat)
  | exitProcess (code : Int)
  | armRestartTimer
  | armSigkillTimer
  | armShutdownKillTimer
  | armShutdownTimeout
  | armHangInterval (id : Nat)
  | closeServer
deriving DecidableEq, Repr

/-- The supervisor's global mutable state (source lines 86-109), extended
with the timer registry (`activeHangIntervals`), fresh-id counters for
timers and pids, and `pendingFinal`: the `(exitCode, reason)` pair captured
by the cleanup closures that will eventually call `finalExit`. -/
structure SupervisorState where
  claudeProcess : Option ChildProcess
  httpServerUp : Bool
  startTime : Int
  lastOutputTs : Int
  lastOutputLine : List Char
  streamActive : Bool
  restartCount : Nat
  restartTimestamps : List Int
  sessionId : String
  claudeCommand : String
  shuttingDown : Bool
  exitCode : Option Int
  hangDetectionInterval : Option Nat
  activeHangIntervals : List Nat
  nextTimerId : Nat
  nextPid : Nat
  pendingFinal : Option (Int × String)
deriving DecidableEq, Repr

/-- Source line 102: `sessionId: process.env.SESSION_ID || 'unknown'`.
An absent or empty (falsy) environment variable becomes the sentinel
string "unknown". -/
def initSessionId (env : Option String) : String :=
  match env with
  | none => "unknown"
  | some s => if s = "" then "unknown" else s

/-- Source line 103: `claudeCommand: process.argv[2] || ''`. -/
def initClaudeCommand (argv2 : Option String) : String :=
  match argv2 with
  | none => ""
  | some s => s

/-- The initial `supervisorState` object (source lines 86-109), at clock
value `now` (`Date.now()`), for a given `SESSION_ID` environment variable
and `argv[2]` command argument. -/
def initState (now : Int) (env : Option String) (argv2 : Option String) :
    SupervisorState :=
  { claudeProcess := none
    httpServerUp := false
    startTime := now
    lastOutputTs := now
    lastOutputLine := []
    streamActive := false
    restartCount := 0
    restartTimestamps := []
    sessionId := initSessionId env
    claudeCommand := initClaudeCommand argv2
    shuttingDown := false
    exitCode := none
    hangDetectionInterval := none
    activeHangIntervals := []
    nextTimerId := 0
    nextPid := 1
    pendingFinal := none }

/-! ### String helpers for the output handlers -/

/-- Whitespace characters removed by JavaScript `String.prototype.trim`
(the ASCII white space and line terminators, plus NBSP and the BOM). -/
def isJsWhitespace (c : Char) : Bool :=
  c = ' ' || c = '\t' || c = '\n' || c = '\r' ||
  c = '\x0b' || c = '\x0c' || c = ' ' || c = '﻿'

/-- JavaScript `s.trim()`: strip leading and trailing whitespace. -/
def jsTrim (l : List Char) : List Char :=
  ((l.dropWhile isJsWhitespace).reverse.dropWhile isJsWhitespace).reverse

/-- JavaScript `s.slice(-n)`: the at-most-`n` trailing characters. -/
def takeLast (n : Nat) (l : List Char) : List Char :=
  l.drop (l.length - n)

/-! ### Stream monitoring (source lines 284-308) -/

/-- The stdout data handler (source lines 288-296): update `lastOutputTs`,
set `lastOutputLine` to the last 100 characters of the trimmed chunk, and
mark the stream active. -/
def onStdoutData (now : Int) (data : List Char) (s : SupervisorState) :
    SupervisorState :=
  { s with lastOutputTs := now
           lastOutputLine := takeLast 100 (jsTrim data)
           streamActive := true }

/-- The stderr data handler (source lines 299-307): identical body to the
stdout handler — errors are still activity. -/
def onStderrData (now : Int) (data : List Char) (s : SupervisorState) :
    SupervisorState :=
  { s with lastOutputTs := now
           lastOutputLine := takeLast 100 (jsTrim data)
           streamActive := true }

/-! ### Restart policy (source lines 422-442) -/

/-- Source `canAttemptRestart` (lines 422-442): false when the lifetime
restart count has reached `MAX_RESTARTS`, false when the number of recorded
restart timestamps within `RESTART_WINDOW_MS` of `now` has reached
`MAX_RESTARTS`, true otherwise.  Pure: it reads `restartCount` and
`restartTimestamps` from the state and returns only a boolean. -/
def canAttemptRestart (restartCount : Nat) (restartTimestamps : List Int)
    (now : Int) : Bool :=
  if restartCount ≥ MAX_RESTARTS then
    false
  else
    let recentRestarts := restartTimestamps.filter
      (fun timestamp => decide (now - timestamp < RESTART_WINDOW_MS))
    if recentRestarts.length ≥ MAX_RESTARTS then
      false
    else
      true

/-! ### Hang detection (source lines 345-406) -/

/-- Source `clearInterval(supervisorState.hangDetectionInterval)`: cancel the
registry entry for the stored handle (the closure reads the handle field at
clear time, so it clears whichever interval the field currently names). -/
def clearStoredInterval (s : SupervisorState) : List Nat :=
  match s.hangDetectionInterval with
  | none => s.activeHangIntervals
  | some h => s.activeHangIntervals.filter (fun i => i ≠ h)

/-- Source `startHangDetection` (lines 345-378): create a fresh interval
timer and overwrite the stored handle with it.  The previous interval, if
still running, is not cancelled here. -/
def startHangDetection (s : SupervisorState) :
    SupervisorState × List Action :=
  let id := s.nextTimerId
  ({ s with hangDetectionInterval := some id
            activeHangIntervals := s.activeHangIntervals ++ [id]
            nextTimerId := id + 1 },
   [Action.armHangInterval id])

/-- Source `killHangingProcess` (lines 380-406): no live unkilled child →
no-op; otherwise send SIGTERM (setting the handle's `killed` flag) and arm
the SIGKILL fallback timer. -/
def killHangingProcess (s : SupervisorState) :
    SupervisorState × List Action :=
  match s.claudeProcess with
  | none => (s, [])
  | some c =>
    if c.killed then (s, [])
    else
      ({ s with claudeProcess := some { c with killed := true } },
       [Action.sigterm c.pid, Action.armSigkillTimer])

/-- The SIGKILL fallback timer callback armed by `killHangingProcess`
(source lines 394-399): if the current child handle exists and its
`killed` flag is false, send SIGKILL.  It checks child liveness only, not
`shuttingDown`. -/
def sigkillResume (s : SupervisorState) : SupervisorState × List Action :=
  match s.claudeProcess with
  | none => (s, [])
  | some c =>
    if c.killed then (s, [])
    else
      ({ s with claudeProcess := some { c with killed := true } },
       [Action.sigkill c.pid])

/-- The body of one hang-detector tick (source lines 346-377): while
shutting down, cancel the stored interval and do nothing else; with no
live unkilled child, no-op; on silence exceeding `STREAM_TIMEOUT_MS`, run
the kill cascade and cancel the stored interval; otherwise no-op. -/
def hangTick (now : Int) (s : SupervisorState) :
    SupervisorState × List Action :=
  if s.shuttingDown then
    ({ s with activeHangIntervals := clearStoredInterval s }, [])
  else
    match s.claudeProcess with
    | none => (s, [])
    | some c =>
      if c.killed then (s, [])
      else if now - s.lastOutputTs > STREAM_TIMEOUT_MS then
        let r := killHangingProcess s
        ({ r.1 with activeHangIntervals := clearStoredInterval r.1 }, r.2)
      else (s, [])

/-! ### Process controller (source lines 238-338) -/

/-- Source `spawnClaudeProcess` (lines 238-282): refuse while shutting
down; otherwise install a fresh child handle, reset `lastOutputTs` to now
and `streamActive` to true, and wire up the stream and exit handlers.
`lastOutputLine` is not touched. -/
def spawnClaudeProcess (now : Int) (s : SupervisorState) :
    SupervisorState × List Action :=
  if s.shuttingDown then (s, [])
  else
    let child : ChildProcess := { pid := s.nextPid, killed := false }
    ({ s with claudeProcess := some child
              nextPid := s.nextPid + 1
              lastOutputTs := now
              streamActive := true },
     [Action.spawnChild child.pid])

/-- Source `scheduleRestart` (lines 444-465): log and arm the restart
delay timer; the state is mutated only when the timer fires. -/
def scheduleRestart (s : SupervisorState) : SupervisorState × List Action :=
  (s, [Action.armRestartTimer])

/-- The restart-delay callback (source lines 448-464): cancel if a
shutdown was requested during the delay; otherwise increment
`restartCount`, append `now` to `restartTimestamps`, spawn the child and
start a new hang-detection interval. -/
def restartResume (now : Int) (s : SupervisorState) :
    SupervisorState × List Action :=
  if s.shuttingDown then (s, [])
  else
    let s1 := { s with restartCount := s.restartCount + 1
                       restartTimestamps := s.restartTimestamps ++ [now] }
    let r2 := spawnClaudeProcess now s1
    let r3 := startHangDetection r2.1
    (r3.1, r2.2 ++ r3.2)

/-! ### Shutdown coordinator (source lines 471-556) -/

/-- Source `gracefulShutdown` (lines 471-544): no-op when already shutting
down; otherwise latch `shuttingDown`, record the exit code, capture
`(exitCode, reason)` for the `finalExit` closures, cancel the stored hang
interval, close the HTTP server if it is up, send SIGTERM to a live
unkilled child and arm the shutdown force-kill timer, and arm the overall
cleanup timeout. -/
def gracefulShutdown (exitCode : Int) (reason : String)
    (s : SupervisorState) : SupervisorState × List Action :=
  if s.shuttingDown then (s, [])
  else
    let s1 := { s with shuttingDown := true
                       exitCode := some exitCode
                       pendingFinal := some (exitCode, reason) }
    let s2 := { s1 with activeHangIntervals := clearStoredInterval s1 }
    let serverActs := if s2.httpServerUp then [Action.closeServer] else []
    match s2.claudeProcess with
    | some c =>
      if c.killed then (s2, serverActs ++ [Action.armShutdownTimeout])
      else
        ({ s2 with claudeProcess := some { c with killed := true } },
         serverActs ++ [Action.armShutdownKillTimer, Action.sigterm c.pid,
                        Action.armShutdownTimeout])
    | none => (s2, serverActs ++ [Action.armShutdownTimeout])

/-- The force-kill timer armed inside `gracefulShutdown` (source lines
515-521): send SIGKILL if the child's `killed` flag is still false. -/
def shutdownKillFire (s : SupervisorState) : SupervisorState × List Action :=
  match s.claudeProcess with
  | none => (s, [])
  | some c =>
    if c.killed then (s, [])
    else
      ({ s with claudeProcess := some { c with killed := true } },
       [Action.sigkill c.pid])

/-- The overall cleanup timeout armed inside `gracefulShutdown` (source
lines 540-543): call `finalExit` with the captured exit code,
unconditionally. -/
def shutdownTimeoutFire (s : SupervisorState) :
    SupervisorState × List Action :=
  match s.pendingFinal with
  | none => (s, [])
  | some p => (s, [Action.exitProcess p.1])

/-- Source `handleClaudeFailure` (lines 408-420): guard on `shuttingDown`;
consult the restart policy; schedule a restart when eligible, otherwise
shut down with exit code 1. -/
def handleClaudeFailure (now : Int) (s : SupervisorState) :
    SupervisorState × List Action :=
  if s.shuttingDown then (s, [])
  else if canAttemptRestart s.restartCount s.restartTimestamps now then
    scheduleRestart s
  else
    gracefulShutdown 1
      ("Claude failed after " ++ toString s.restartCount ++ " restarts") s

/-- The child `exit` event handler (source lines 313-332): mark the stream
inactive; if shutting down, stop; exit code 0 → shutdown with code 0; any
other code or signal → the failure path. -/
def onChildExit (now : Int) (code : Option Int) (s : SupervisorState) :
    SupervisorState × List Action :=
  let s0 := { s with streamActive := false }
  if s0.shuttingDown then (s0, [])
  else if code = some 0 then
    gracefulShutdown 0 "Claude completed successfully" s0
  else
    handleClaudeFailure now s0

/-- The child `error` event handler (source lines 334-337): route the
spawn error through the failure path as exit code -1. -/
def onChildError (now : Int) (s : SupervisorState) :
    SupervisorState × List Action :=
  handleClaudeFailure now s

/-! ### OS signal and fault handlers (source lines 607-625) -/

/-- SIGTERM handler (source lines 607-610). -/
def onSigterm (s : SupervisorState) : SupervisorState × List Action :=
  gracefulShutdown 0 "SIGTERM received" s

/-- SIGINT handler (source lines 612-615). -/
def onSigint (s : SupervisorState) : SupervisorState × List Action :=
  gracefulShutdown 0 "SIGINT received" s

/-- uncaughtException handler (source lines 617-620). -/
def onUncaughtException (msg : String) (s : SupervisorState) :
    SupervisorState × List Action :=
  gracefulShutdown 1 ("Uncaught exception: " ++ msg) s

/-- unhandledRejection handler (source lines 622-625). -/
def onUnhandledRejection (msg : String) (s : SupervisorState) :
    SupervisorState × List Action :=
  gracefulShutdown 1 ("Unhandled rejection: " ++ msg) s

/-! ### Startup (source lines 562-601) -/

/-- Source function at lines 562-601: build the initial
state; exit with code 1 when the session id is empty or the sentinel
"unknown", or when the command is empty; otherwise start the health
server, start hang detection, and spawn the child. -/
def initSupervisor (env : Option String) (argv2 : Option String)
    (now : Int) : SupervisorState × List Action :=
  let s := initState now env argv2
  if s.sessionId = "" ∨ s.sessionId = "unknown" then
    (s, [Action.exitProcess 1])
  else if s.claudeCommand = "" then
    (s, [Action.exitProcess 1])
  else
    let s0 := { s with httpServerUp := true }
    let r1 := startHangDetection s0
    let r2 := spawnClaudeProcess now r1.1
    (r2.1, r1.2 ++ r2.2)

/-! ### The event system and reachability -/

/-- The discrete events that drive the supervisor after initialization. -/
inductive Event where
  | childExit (now : Int) (code : Option Int)
  | childError (now : Int)
  | stdoutData (now : Int) (data : List Char)
  | stderrData (now : Int) (data : List Char)
  | hangTickFire (now : Int)
  | restartFire (now : Int)
  | sigkillFire
  | shutdownKill
  | shutdownTimeout
  | sigTermSignal
  | sigIntSignal
  | uncaughtFault (msg : String)
  | unhandledFault (msg : String)
deriving DecidableEq, Repr

/-- Dispatch one event to its handler. -/
def step (e : Event) (s : SupervisorState) : SupervisorState × List Action :=
  match e with
  | .childExit now code => onChildExit now code s
  | .childError now => onChildError now s
  | .stdoutData now data => (onStdoutData now data s, [])
  | .stderrData now data => (onStderrData now data s, [])
  | .hangTickFire now => hangTick now s
  | .restartFire now => restartResume now s
  | .sigkillFire => sigkillResume s
  | .shutdownKill => shutdownKillFire s
  | .shutdownTimeout => shutdownTimeoutFire s
  | .sigTermSignal => onSigterm s
  | .sigIntSignal => onSigint s
  | .uncaughtFault msg => onUncaughtException msg s
  | .unhandledFault msg => onUnhandledRejection msg s

/-- States reachable from some initialization by a sequence of events. -/
inductive Reachable : SupervisorState → Prop where
  | base (env argv2 : Option String) (now : Int) :
      Reachable (initSupervisor env argv2 now).1
  | next (s : SupervisorState) (e : Event) :
      Reachable s → Reachable (step e s).1

/-- The child handle is absent or has been sent a signal. -/
def childDead (s : SupervisorState) : Bool :=
  match s.claudeProcess with
  | none => true
  | some c => c.killed

/-- The inductive invariant: the restart count matches the restart
history, and once shutting down the child has been signalled or never
existed, and the cleanup closures are armed only during shutdown. -/
def Inv (s : SupervisorState) : Prop :=
  s.restartCount = s.restartTimestamps.length ∧
  (s.shuttingDown = true → childDead s = true) ∧
  (s.pendingFinal ≠ none → s.shuttingDown = true)

/-! ### Concrete states used by witnesses and counterexamples -/

/-- The state right after a successful initialization with session id
"sess" and command "cmd" at clock 0. -/
def sRun : SupervisorState := (initSupervisor (some "sess") (some "cmd") 0).1

/-- The state after a SIGTERM-triggered shutdown request on `sRun`. -/
def sDown : SupervisorState := (step Event.sigTermSignal sRun).1

/-- A running state whose previous child generation left a snippet. -/
def sSnip : SupervisorState :=
  { initState 0 (some "sess") (some "cmd") with
    lastOutputLine := ['o', 'l', 'd'] }

/-- State `sRun` after the child exits with code 1 (restart scheduled). -/
def sC9a : SupervisorState := (step (Event.childExit 10 (some 1)) sRun).1

/-- State `sC9a` after the restart delay fires: a second hang interval is
created while the first is still running. -/
def sC9 : SupervisorState := (step (Event.restartFire 20) sC9a).1

/-! ### C1: the restart policy -/

/-- C1: `canAttemptRestart(restartCount, restartTimestamps, now)` returns
true iff both `restartCount < MAX_RESTARTS` and the number of entries `t`
of `restartTimestamps` with `now - t < RESTART_WINDOW_MS` is below
`MAX_RESTARTS`.  The function consumes only the two state fields and the
clock and returns a boolean, so it mutates no supervisor state. -/
theorem canAttemptRestart_spec (rc : Nat) (ts : List Int) (now : Int) :
    canAttemptRestart rc ts now = true ↔
      (rc < MAX_RESTARTS ∧
       (ts.filter
          (fun t => decide (now - t < RESTART_WINDOW_MS))).length
         < MAX_RESTARTS) := by
  simp only [canAttemptRestart]
  split_ifs with h1 h2
  · simp only [Bool.false_eq_true, false_iff]
    intro hc
    omega
  · simp only [Bool.false_eq_true, false_iff]
    intro hc
    omega
  · simp only [true_iff]
    constructor <;> omega

/-! ### C10: startup validation of the session id -/

/-- C10: startup validation exits with code 1 before any spawn not only
when the SESSION_ID environment variable is absent or empty, but also when
it is explicitly the literal string "unknown", because absence is encoded
internally as that sentinel string. -/
theorem session_unknown_rejected (env argv2 : Option String) (now : Int)
    (h : env = none ∨ env = some "" ∨ env = some "unknown") :
    (initSupervisor env argv2 now).2 = [Action.exitProcess 1] ∧
    (initSupervisor env argv2 now).1.claudeProcess = none := by
  rcases h with h | h | h <;> subst h <;>
    simp [initSupervisor, initState, initSessionId]

/-- Witness for C10 at the explicitly supplied literal "unknown". -/
theorem session_unknown_rejected_witness :
    ((some "unknown" : Option String) = none ∨
     (some "unknown" : Option String) = some "" ∨
     (some "unknown" : Option String) = some "unknown") ∧
    ((initSupervisor (some "unknown") (some "cmd") 0).2 =
       [Action.exitProcess 1] ∧
     (initSupervisor (some "unknown") (some "cmd") 0).1.claudeProcess =
       none) :=
  ⟨Or.inr (Or.inr rfl),
   session_unknown_rejected (some "unknown") (some "cmd") 0
     (Or.inr (Or.inr rfl))⟩

/-! ### C6: the activity tracker under output events -/

/-- An output event: channel, timestamp, chunk content. -/
inductive OutChannel where
  | stdoutChan
  | stderrChan
deriving DecidableEq, Repr

/-- Apply one output event to the state via the channel's handler. -/
def outputStep (s : SupervisorState) (e : OutChannel × Int × List Char) :
    SupervisorState :=
  match e with
  | (OutChannel.stdoutChan, now, data) => onStdoutData now data s
  | (OutChannel.stderrChan, now, data) => onStderrData now data s

/-- C6 counterexample: after a single stdout event whose content is
"a\n", the stored snippet is "a" (the code trims the chunk before taking
the trailing 100 characters), not the final trailing characters "a\n" of
the content itself, refuting the claim as stated. -/
theorem output_snippet_cex :
    (onStdoutData 5 ['a', '\n'] (initState 0 (some "sess") (some "cmd"))
      ).lastOutputLine ≠ takeLast 100 ['a', '\n'] ∧
    (onStdoutData 5 ['a', '\n'] (initState 0 (some "sess") (some "cmd"))
      ).lastOutputLine = ['a'] := by
  decide

/-- C6 amended: after any sequence of output events ending with an event
of timestamp `now` and content `data`, on either channel, `lastOutputTs`
equals `now`, `lastOutputSnippet` equals the final at-most-100 trailing
characters of the whitespace-trimmed content of that last event, and
`streamActive` is true; the stdout and stderr handlers are identical. -/
theorem output_tracker_trimmed (s : SupervisorState)
    (es : List (OutChannel × Int × List Char)) (ch : OutChannel)
    (now : Int) (data : List Char) :
    ((es ++ [(ch, now, data)]).foldl outputStep s).lastOutputTs = now ∧
    ((es ++ [(ch, now, data)]).foldl outputStep s).lastOutputLine =
      takeLast 100 (jsTrim data) ∧
    ((es ++ [(ch, now, data)]).foldl outputStep s).streamActive = true ∧
    onStdoutData now data s = onStderrData now data s := by
  rw [List.foldl_append]
  cases ch <;>
    simp [outputStep, onStdoutData, onStderrData]

/-! ### C7: what spawn resets -/

/-- C7 counterexample: a spawn with `shuttingDown = false` carries the
previous generation's snippet "old" over unchanged instead of resetting
it, refuting the claim that the entire activity tracker is reset. -/
theorem spawn_snippet_cex :
    sSnip.shuttingDown = false ∧
    sSnip.lastOutputLine = ['o', 'l', 'd'] ∧
    (spawnClaudeProcess 10 sSnip).1.lastOutputLine = ['o', 'l', 'd'] := by
  decide

/-- C7 amended: every spawn with `shuttingDown = false` sets
`lastOutputTs` to the current time and `streamActive` to true, while
`lastOutputSnippet` is carried over unchanged from the previous child
generation (the source resets only the first two fields). -/
theorem spawn_resets_tracker (s : SupervisorState) (now : Int)
    (h : s.shuttingDown = false) :
    (spawnClaudeProcess now s).1.lastOutputTs = now ∧
    (spawnClaudeProcess now s).1.streamActive = true ∧
    (spawnClaudeProcess now s).1.lastOutputLine = s.lastOutputLine := by
  simp [spawnClaudeProcess, h]

/-- Witness for the amended C7 at a concrete running state. -/
theorem spawn_resets_tracker_witness :
    sSnip.shuttingDown = false ∧
    ((spawnClaudeProcess 7 sSnip).1.lastOutputTs = 7 ∧
     (spawnClaudeProcess 7 sSnip).1.streamActive = true ∧
     (spawnClaudeProcess 7 sSnip).1.lastOutputLine =
       sSnip.lastOutputLine) :=
  ⟨rfl, spawn_resets_tracker sSnip 7 rfl⟩

/-! ### The inductive invariant over reachable states -/

lemma childDead_update_stream (s : SupervisorState) (b : Bool) :
    childDead { s with streamActive := b } = childDead s := rfl

lemma inv_gracefulShutdown (c : Int) (r : String) (s : SupervisorState)
    (ih : Inv s) : Inv (gracefulShutdown c r s).1 := by
  obtain ⟨ih1, ih2, ih3⟩ := ih
  by_cases hsd : s.shuttingDown
  · simp only [gracefulShutdown, hsd, if_true]
    exact ⟨ih1, ih2, ih3⟩
  · cases hc : s.claudeProcess with
    | none =>
      simp [gracefulShutdown, hsd, hc, Inv, childDead]
      exact ih1
    | some c0 =>
      by_cases hk : c0.killed <;>
        simp [gracefulShutdown, hsd, hc, hk, Inv, childDead] <;>
        exact ih1

lemma inv_handleClaudeFailure (now : Int) (s : SupervisorState)
    (ih : Inv s) : Inv (handleClaudeFailure now s).1 := by
  unfold handleClaudeFailure
  split_ifs with h1 h2
  · exact ih
  · exact ih
  · exact inv_gracefulShutdown _ _ s ih

lemma inv_spawnClaudeProcess (now : Int) (s : SupervisorState)
    (ih : Inv s) : Inv (spawnClaudeProcess now s).1 := by
  obtain ⟨ih1, ih2, ih3⟩ := ih
  simp only [spawnClaudeProcess]
  split_ifs with h1
  · exact ⟨ih1, ih2, ih3⟩
  · exact ⟨ih1, fun h => absurd h h1, fun h => ih3 h⟩

lemma inv_onChildExit (now : Int) (code : Option Int)
    (s : SupervisorState) (ih : Inv s) : Inv (onChildExit now code s).1 := by
  obtain ⟨ih1, ih2, ih3⟩ := ih
  have ih' : Inv { s with streamActive := false } :=
    ⟨ih1, fun h => ih2 h, fun h => ih3 h⟩
  simp only [onChildExit]
  split_ifs with h1 h2
  · exact ih'
  · exact inv_gracefulShutdown _ _ _ ih'
  · exact inv_handleClaudeFailure now _ ih'

lemma inv_startHangDetection (s : SupervisorState) (ih : Inv s) :
    Inv (startHangDetection s).1 := by
  obtain ⟨ih1, ih2, ih3⟩ := ih
  exact ⟨ih1, ih2, ih3⟩

lemma inv_restartResume (now : Int) (s : SupervisorState) (ih : Inv s) :
    Inv (restartResume now s).1 := by
  obtain ⟨ih1, ih2, ih3⟩ := ih
  simp only [restartResume]
  split_ifs with h1
  · exact ⟨ih1, ih2, ih3⟩
  · refine inv_startHangDetection _ (inv_spawnClaudeProcess now _ ?_)
    refine ⟨by simp [ih1], fun h => absurd h h1, fun h => ih3 h⟩

lemma inv_killHangingProcess (s : SupervisorState) (ih : Inv s) :
    Inv (killHangingProcess s).1 := by
  obtain ⟨ih1, ih2, ih3⟩ := ih
  unfold killHangingProcess
  cases hc : s.claudeProcess with
  | none => exact ⟨ih1, ih2, ih3⟩
  | some c0 =>
    by_cases hk : c0.killed
    · simp only [hk, if_true]
      exact ⟨ih1, ih2, ih3⟩
    · simp only [hk, if_false]
      exact ⟨ih1, fun _ => by simp [childDead], fun h => ih3 h⟩

lemma inv_set_intervals (s : SupervisorState) (l : List Nat) (ih : Inv s) :
    Inv { s with activeHangIntervals := l } :=
  ⟨ih.1, fun h => ih.2.1 h, fun h => ih.2.2 h⟩

lemma inv_hangTick (now : Int) (s : SupervisorState) (ih : Inv s) :
    Inv (hangTick now s).1 := by
  obtain ⟨ih1, ih2, ih3⟩ := ih
  by_cases h1 : s.shuttingDown = true
  · have he : hangTick now s =
        ({ s with activeHangIntervals := clearStoredInterval s }, []) := by
      simp [hangTick, h1]
    rw [he]
    exact inv_set_intervals _ _ ⟨ih1, ih2, ih3⟩
  · cases hc : s.claudeProcess with
    | none =>
      have he : hangTick now s = (s, []) := by simp [hangTick, h1, hc]
      rw [he]
      exact ⟨ih1, ih2, ih3⟩
    | some c0 =>
      by_cases hk : c0.killed = true
      · have he : hangTick now s = (s, []) := by
          simp [hangTick, h1, hc, hk]
        rw [he]
        exact ⟨ih1, ih2, ih3⟩
      · by_cases h2 : now - s.lastOutputTs > STREAM_TIMEOUT_MS
        · have he : hangTick now s =
            ({ (killHangingProcess s).1 with
                activeHangIntervals :=
                  clearStoredInterval (killHangingProcess s).1 },
             (killHangingProcess s).2) := by
            simp [hangTick, h1, hc, hk, h2]
          rw [he]
          exact inv_set_intervals _ _
            (inv_killHangingProcess s ⟨ih1, ih2, ih3⟩)
        · have he : hangTick now s = (s, []) := by
            simp [hangTick, h1, hc, hk, h2]
          rw [he]
          exact ⟨ih1, ih2, ih3⟩

lemma inv_sigkillResume (s : SupervisorState) (ih : Inv s) :
    Inv (sigkillResume s).1 := by
  obtain ⟨ih1, ih2, ih3⟩ := ih
  unfold sigkillResume
  cases hc : s.claudeProcess with
  | none => exact ⟨ih1, ih2, ih3⟩
  | some c0 =>
    by_cases hk : c0.killed
    · simp only [hk, if_true]
      exact ⟨ih1, ih2, ih3⟩
    · simp only [hk, if_false]
      exact ⟨ih1, fun _ => by simp [childDead], fun h => ih3 h⟩

lemma inv_shutdownKillFire (s : SupervisorState) (ih : Inv s) :
    Inv (shutdownKillFire s).1 := by
  obtain ⟨ih1, ih2, ih3⟩ := ih
  unfold shutdownKillFire
  cases hc : s.claudeProcess with
  | none => exact ⟨ih1, ih2, ih3⟩
  | some c0 =>
    by_cases hk : c0.killed
    · simp only [hk, if_true]
      exact ⟨ih1, ih2, ih3⟩
    · simp only [hk, if_false]
      exact ⟨ih1, fun _ => by simp [childDead], fun h => ih3 h⟩

lemma inv_shutdownTimeoutFire (s : SupervisorState) (ih : Inv s) :
    Inv (shutdownTimeoutFire s).1 := by
  unfold shutdownTimeoutFire
  cases hp : s.pendingFinal <;> exact ih

lemma inv_init (env argv2 : Option String) (now : Int) :
    Inv (initSupervisor env argv2 now).1 := by
  simp only [initSupervisor]
  split_ifs with h1 h2 <;>
    simp [Inv, initState, childDead, startHangDetection,
          spawnClaudeProcess]

lemma inv_step (e : Event) (s : SupervisorState) (ih : Inv s) :
    Inv (step e s).1 := by
  cases e with
  | childExit now code => exact inv_onChildExit now code s ih
  | childError now => exact inv_handleClaudeFailure now s ih
  | stdoutData now data =>
    obtain ⟨ih1, ih2, ih3⟩ := ih
    exact ⟨ih1, fun h => ih2 h, fun h => ih3 h⟩
  | stderrData now data =>
    obtain ⟨ih1, ih2, ih3⟩ := ih
    exact ⟨ih1, fun h => ih2 h, fun h => ih3 h⟩
  | hangTickFire now => exact inv_hangTick now s ih
  | restartFire now => exact inv_restartResume now s ih
  | sigkillFire => exact inv_sigkillResume s ih
  | shutdownKill => exact inv_shutdownKillFire s ih
  | shutdownTimeout => exact inv_shutdownTimeoutFire s ih
  | sigTermSignal => exact inv_gracefulShutdown 0 "SIGTERM received" s ih
  | sigIntSignal => exact inv_gracefulShutdown 0 "SIGINT received" s ih
  | uncaughtFault msg => exact inv_gracefulShutdown 1 _ s ih
  | unhandledFault msg => exact inv_gracefulShutdown 1 _ s ih

/-- Every reachable supervisor state satisfies the inductive invariant. -/
lemma reachable_inv (s : SupervisorState) (h : Reachable s) : Inv s := by
  induction h with
  | base env argv2 now => exact inv_init env argv2 now
  | next s e _ ih => exact inv_step e s ih

/-! ### Reachability of the concrete witness states -/

lemma reach_sRun : Reachable sRun :=
  Reachable.base (some "sess") (some "cmd") 0

lemma reach_sDown : Reachable sDown :=
  Reachable.next sRun Event.sigTermSignal reach_sRun

lemma reach_sC9a : Reachable sC9a :=
  Reachable.next sRun (Event.childExit 10 (some 1)) reach_sRun

lemma reach_sC9 : Reachable sC9 :=
  Reachable.next sC9a (Event.restartFire 20) reach_sC9a

/-! ### Facts about gracefulShutdown -/

lemma gracefulShutdown_fields (c : Int) (r : String) (s : SupervisorState)
    (h : s.shuttingDown = false) :
    (gracefulShutdown c r s).1.shuttingDown = true ∧
    (gracefulShutdown c r s).1.exitCode = some c ∧
    (gracefulShutdown c r s).1.pendingFinal = some (c, r) := by
  cases hc : s.claudeProcess with
  | none => simp [gracefulShutdown, h, hc]
  | some c0 =>
    by_cases hk : c0.killed = true <;> simp [gracefulShutdown, h, hc, hk]

lemma gracefulShutdown_noop (c : Int) (r : String) (s : SupervisorState)
    (h : s.shuttingDown = true) : gracefulShutdown c r s = (s, []) := by
  simp [gracefulShutdown, h]

lemma shutdownTimeoutFire_eq (s : SupervisorState) (c : Int) (r : String)
    (h : s.pendingFinal = some (c, r)) :
    shutdownTimeoutFire s = (s, [Action.exitProcess c]) := by
  simp [shutdownTimeoutFire, h]

/-! ### C2: shuttingDown gates all mutating reactions -/

/-- C2: in any state with `shuttingDown` true, a spawn and a resumed
restart callback are exact no-ops (same state, no actions), and a
hang-detector tick changes nothing except cancelling its own interval
registry entry, emitting no actions — so no new child process, no
`restartCount`/`restartTimestamps` change, and no kill cascade. -/
theorem shutdown_blocks_mutations (s : SupervisorState) (now : Int)
    (h : s.shuttingDown = true) :
    spawnClaudeProcess now s = (s, []) ∧
    restartResume now s = (s, []) ∧
    (hangTick now s).1 =
      { s with activeHangIntervals := clearStoredInterval s } ∧
    (hangTick now s).2 = [] := by
  refine ⟨by simp [spawnClaudeProcess, h], by simp [restartResume, h],
    ?_, ?_⟩ <;> simp [hangTick, h]

/-- Witness for C2 at the concrete post-shutdown state `sDown`. -/
theorem shutdown_blocks_mutations_witness :
    sDown.shuttingDown = true ∧
    (spawnClaudeProcess 50 sDown = (sDown, []) ∧
     restartResume 50 sDown = (sDown, []) ∧
     (hangTick 50 sDown).1 =
       { sDown with activeHangIntervals := clearStoredInterval sDown } ∧
     (hangTick 50 sDown).2 = []) :=
  ⟨by decide, shutdown_blocks_mutations sDown 50 (by decide)⟩

/-! ### C3: idempotence of the shutdown request -/

/-- C3: a first `gracefulShutdown(c1, r1)` on a non-shutting-down state
latches `shuttingDown`, records exit code `c1` and captures `(c1, r1)`
for `finalExit`; any second call `gracefulShutdown(c2, r2)` is an exact
no-op, and the final exit performed by the cleanup timeout uses `c1`. -/
theorem gracefulShutdown_idempotent (s : SupervisorState) (c1 c2 : Int)
    (r1 r2 : String) (h : s.shuttingDown = false) :
    (gracefulShutdown c1 r1 s).1.shuttingDown = true ∧
    (gracefulShutdown c1 r1 s).1.exitCode = some c1 ∧
    (gracefulShutdown c1 r1 s).1.pendingFinal = some (c1, r1) ∧
    gracefulShutdown c2 r2 (gracefulShutdown c1 r1 s).1 =
      ((gracefulShutdown c1 r1 s).1, []) ∧
    shutdownTimeoutFire (gracefulShutdown c1 r1 s).1 =
      ((gracefulShutdown c1 r1 s).1, [Action.exitProcess c1]) := by
  obtain ⟨f1, f2, f3⟩ := gracefulShutdown_fields c1 r1 s h
  exact ⟨f1, f2, f3, gracefulShutdown_noop c2 r2 _ f1,
    shutdownTimeoutFire_eq _ c1 r1 f3⟩

/-- Witness for C3: two calls with different codes and reasons on the
concrete running state `sRun`. -/
theorem gracefulShutdown_idempotent_witness :
    sRun.shuttingDown = false ∧
    ((gracefulShutdown 0 "SIGTERM received" sRun).1.shuttingDown = true ∧
     (gracefulShutdown 0 "SIGTERM received" sRun).1.exitCode = some 0 ∧
     (gracefulShutdown 0 "SIGTERM received" sRun).1.pendingFinal =
       some (0, "SIGTERM received") ∧
     gracefulShutdown 1 "other"
       (gracefulShutdown 0 "SIGTERM received" sRun).1 =
       ((gracefulShutdown 0 "SIGTERM received" sRun).1, []) ∧
     shutdownTimeoutFire (gracefulShutdown 0 "SIGTERM received" sRun).1 =
       ((gracefulShutdown 0 "SIGTERM received" sRun).1,
        [Action.exitProcess 0])) :=
  ⟨by decide,
   gracefulShutdown_idempotent sRun 0 1 "SIGTERM received" "other"
     (by decide)⟩

/-! ### C5: suspended actions after a shutdown request -/

/-- C5: in every reachable state with `shuttingDown` true, each action
that was suspended while shutdown could still be requested performs no
further effect on resumption: the restart-delay callback is an exact
no-op; a hang-detector tick emits nothing and only cancels its own
interval; the forced-kill SIGKILL callbacks (hang path and shutdown path)
are exact no-ops, because any reachable shutting-down state has its child
already signalled or absent; and the overall shutdown timeout mutates no
state (its only effect is the designed `finalExit`, armed only after
`shuttingDown` is already true). -/
theorem suspended_actions_check_shutdown (s : SupervisorState) (now : Int)
    (hr : Reachable s) (hs : s.shuttingDown = true) :
    restartResume now s = (s, []) ∧
    (hangTick now s).1 =
      { s with activeHangIntervals := clearStoredInterval s } ∧
    (hangTick now s).2 = [] ∧
    sigkillResume s = (s, []) ∧
    shutdownKillFire s = (s, []) ∧
    (shutdownTimeoutFire s).1 = s := by
  have hd : childDead s = true := (reachable_inv s hr).2.1 hs
  refine ⟨by simp [restartResume, hs], by simp [hangTick, hs],
    by simp [hangTick, hs], ?_, ?_, ?_⟩
  · cases hc : s.claudeProcess with
    | none => simp [sigkillResume, hc]
    | some c0 =>
      have hk : c0.killed = true := by simpa [childDead, hc] using hd
      simp [sigkillResume, hc, hk]
  · cases hc : s.claudeProcess with
    | none => simp [shutdownKillFire, hc]
    | some c0 =>
      have hk : c0.killed = true := by simpa [childDead, hc] using hd
      simp [shutdownKillFire, hc, hk]
  · cases hp : s.pendingFinal <;> simp [shutdownTimeoutFire, hp]

/-- Witness for C5 at the concrete reachable shutting-down state
`sDown`. -/
theorem suspended_actions_check_shutdown_witness :
    sDown.shuttingDown = true ∧
    (restartResume 50 sDown = (sDown, []) ∧
     (hangTick 50 sDown).1 =
       { sDown with activeHangIntervals := clearStoredInterval sDown } ∧
     (hangTick 50 sDown).2 = [] ∧
     sigkillResume sDown = (sDown, []) ∧
     shutdownKillFire sDown = (sDown, []) ∧
     (shutdownTimeoutFire sDown).1 = sDown) :=
  ⟨by decide,
   suspended_actions_check_shutdown sDown 50 reach_sDown (by decide)⟩

/-! ### C8: restart count equals restart history -/

/-- C8: in every reachable state, `restartCount` equals the length of
`restartTimestamps`; the restart-delay callback increments the count and
appends one timestamp in the same reaction, and no other reaction touches
either field. -/
theorem restart_count_matches_history (s : SupervisorState)
    (h : Reachable s) : s.restartCount = s.restartTimestamps.length :=
  (reachable_inv s h).1

/-- Witness for C8 at the concrete post-restart state `sC9` (one
recorded restart). -/
theorem restart_count_matches_history_witness :
    Reachable sC9 ∧ sC9.restartCount = sC9.restartTimestamps.length :=
  ⟨reach_sC9, restart_count_matches_history sC9 reach_sC9⟩

/-! ### C9: uniqueness of the hang-detection interval -/

/-- C9 counterexample: in the reachable state after a child exit with
code 1 followed by the restart-delay callback (a restart with no hang and
no shutdown), two hang-detection intervals are active simultaneously —
interval 0 from initialization is still running, since nothing cancelled
it, while the stored handle refers only to the new interval 1.  This
refutes the claim that at most one interval is ever active. -/
theorem hang_interval_duplicate_cex :
    Reachable sC9 ∧
    sC9.activeHangIntervals = [0, 1] ∧
    sC9.hangDetectionInterval = some 1 :=
  ⟨reach_sC9, by decide, by decide⟩

/-- C9 amended: the resumed restart callback (with `shuttingDown` false)
sets `hangDetectorHandle` to the freshly created interval, but leaves all
previously active intervals running: the registry after the resume is the
old registry with the new interval appended.  After a restart following a
plain non-zero child exit the previous interval is therefore still
running; only a hang-triggered kill or a shutdown tick cancels the stored
interval. -/
theorem hang_interval_amended (s : SupervisorState) (now : Int)
    (h : s.shuttingDown = false) :
    (restartResume now s).1.hangDetectionInterval = some s.nextTimerId ∧
    (restartResume now s).1.activeHangIntervals =
      s.activeHangIntervals ++ [s.nextTimerId] := by
  simp [restartResume, h, spawnClaudeProcess, startHangDetection]

/-- Witness for the amended C9 at the concrete state `sC9a`. -/
theorem hang_interval_amended_witness :
    sC9a.shuttingDown = false ∧
    ((restartResume 20 sC9a).1.hangDetectionInterval =
       some sC9a.nextTimerId ∧
     (restartResume 20 sC9a).1.activeHangIntervals =
       sC9a.activeHangIntervals ++ [sC9a.nextTimerId]) :=
  ⟨by decide, hang_interval_amended sC9a 20 (by decide)⟩

/-! ### C4: exit-code classification -/

/-- C4: the requested exit code is 0 exactly for a child exit with code 0
and for the two termination signals, and 1 exactly for an uncaught
exception, an unhandled rejection, a child failure with the restart
budget exhausted (otherwise a restart is scheduled and no exit code is
set), and startup validation failure (missing session id or missing
command), which exits before any spawn. -/
theorem exit_code_spec (s : SupervisorState) (now : Int) (msg : String)
    (code : Option Int) (h : s.shuttingDown = false) :
    (onSigterm s).1.exitCode = some 0 ∧
    (onSigint s).1.exitCode = some 0 ∧
    (onUncaughtException msg s).1.exitCode = some 1 ∧
    (onUnhandledRejection msg s).1.exitCode = some 1 ∧
    (onChildExit now code s).1.exitCode =
      (if code = some 0 then some 0
       else if canAttemptRestart s.restartCount s.restartTimestamps now
       then s.exitCode
       else some 1) ∧
    (initSupervisor none (some "cmd") now).2 = [Action.exitProcess 1] ∧
    (initSupervisor (some "sid") none now).2 = [Action.exitProcess 1] := by
  refine ⟨(gracefulShutdown_fields 0 _ s h).2.1,
    (gracefulShutdown_fields 0 _ s h).2.1,
    (gracefulShutdown_fields 1 _ s h).2.1,
    (gracefulShutdown_fields 1 _ s h).2.1, ?_, ?_, ?_⟩
  · have e1 : onChildExit now code s =
        (if code = some 0 then
          gracefulShutdown 0 "Claude completed successfully"
            { s with streamActive := false }
        else handleClaudeFailure now { s with streamActive := false }) := by
      simp [onChildExit, h]
    rw [e1]
    by_cases hc0 : code = some 0
    · rw [if_pos hc0, if_pos hc0]
      exact (gracefulShutdown_fields 0 _ { s with streamActive := false }
        h).2.1
    · rw [if_neg hc0, if_neg hc0]
      by_cases hr : canAttemptRestart s.restartCount s.restartTimestamps
          now = true
      · rw [if_pos hr]
        simp [handleClaudeFailure, h, hr, scheduleRestart]
      · rw [if_neg hr]
        have e2 : handleClaudeFailure now { s with streamActive := false } =
            gracefulShutdown 1
              ("Claude failed after " ++ toString s.restartCount ++
               " restarts")
              { s with streamActive := false } := by
          simp [handleClaudeFailure, h, hr]
        rw [e2]
        exact (gracefulShutdown_fields 1 _ { s with streamActive := false }
          h).2.1
  · simp [initSupervisor, initState, initSessionId]
  · have hval : ¬((initState now (some "sid") none).sessionId = "" ∨
        (initState now (some "sid") none).sessionId = "unknown") := by
      simp [initState, initSessionId]
    simp [initSupervisor, hval, initState, initClaudeCommand]

/-- Witness for C4 at the concrete running state `sRun`, with a failing
child exit (code 1, restart still available). -/
theorem exit_code_spec_witness :
    sRun.shuttingDown = false ∧
    ((onSigterm sRun).1.exitCode = some 0 ∧
     (onSigint sRun).1.exitCode = some 0 ∧
     (onUncaughtException "boom" sRun).1.exitCode = some 1 ∧
     (onUnhandledRejection "boom" sRun).1.exitCode = some 1 ∧
     (onChildExit 99 (some 1) sRun).1.exitCode =
       (if (some 1 : Option Int) = some 0 then some 0
        else if canAttemptRestart sRun.restartCount
          sRun.restartTimestamps 99
        then sRun.exitCode
        else some 1) ∧
     (initSupervisor none (some "cmd") 99).2 = [Action.exitProcess 1] ∧
     (initSupervisor (some "sid") none 99).2 = [Action.exitProcess 1]) :=
  ⟨by decide, exit_code_spec sRun 99 "boom" (some 1) (by decide)⟩

end Supervisor
